import Mathlib

/-!
Verification of the query orchestration engine of an AI study-assistant
service: intent classification, provider/model selection with availability
fallback, adaptive context retrieval, and generation with rate-limit
failover.  The definitions below are a shallow embedding of
services/intent_classifier.py, core/model_manager.py, core/config.py and
services/orchestrator.py.  External I/O (embedding, vector search, text
generation) is modelled by oracle functions returning Except values, where
an error value stands for a raised exception carrying its message string.
Floating point scores and thresholds are modelled as rationals.
-/

namespace AcademicHub

/-- Decides whether the needle is an initial segment of the hay, on
character lists. -/
def matchHead : List Char → List Char → Bool
  | [], _ => true
  | _ :: _, [] => false
  | a :: as, b :: bs => a == b && matchHead as bs

/-- Decides whether the needle occurs as a contiguous substring of the hay,
on character lists. -/
def charsHas : List Char → List Char → Bool
  | [], needle => needle.isEmpty
  | c :: tl, needle => matchHead needle (c :: tl) || charsHas tl needle

/-- Substring containment on strings, matching the Python operator in. -/
def strHas (hay needle : String) : Bool :=
  charsHas hay.data needle.data

/-- Lower-casing of a string, character by character, modelling the Python
str.lower call at the top of classify. -/
def lowerStr (s : String) : String :=
  ⟨s.data.map Char.toLower⟩

/-- IntentClassifier private helper: the text contains at least one of the
keywords (substring containment). -/
def has_keywords (text : String) (keywords : List String) : Bool :=
  keywords.any (fun kw => strHas text kw)

/-- Keyword list of the summarization intent, from IntentClassifier.INTENTS. -/
def summarizationKeywords : List String :=
  ["tóm tắt", "summarize", "tổng hợp", "tổng kết",
   "summary", "overview", "nội dung chính",
   "điểm chính", "key points"]

/-- Keyword list of the question_generation intent, from
IntentClassifier.INTENTS. -/
def questionGenerationKeywords : List String :=
  ["tạo câu hỏi", "đưa ra câu hỏi", "gợi ý câu hỏi",
   "câu hỏi khác", "câu hỏi thêm", "câu hỏi tương tự",
   "generate questions", "suggest questions",
   "questions about", "quiz", "practice questions"]

/-- Keyword list of the rag_query intent (explicit document references),
from IntentClassifier.INTENTS. -/
def ragQueryKeywords : List String :=
  ["theo tài liệu", "trong file", "trong tài liệu",
   "dựa vào", "dựa theo", "file nói gì",
   "tài liệu có", "trong bài", "theo bài"]

/-- Keyword list of the homework_solver intent, from
IntentClassifier.INTENTS. -/
def homeworkSolverKeywords : List String :=
  ["giải bài", "giải bài tập", "homework",
   "bài tập", "exercise", "problem",
   "làm giúp", "hướng dẫn giải"]

/-- Keyword list of the code_help intent, from IntentClassifier.INTENTS. -/
def codeHelpKeywords : List String :=
  ["code", "viết code", "lập trình", "program",
   "implement", "function", "class", "debug"]

/-- Factual-question patterns from
IntentClassifier private method checking factual questions. -/
def factualPatterns : List String :=
  ["là gì", "what is", "define",
   "nghĩa là", "meaning",
   "khác nhau", "difference", "so sánh", "compare",
   "là", "means", "refers to"]

/-- IntentClassifier private helper: the (lower-cased) question asks for
facts. -/
def is_factual_question (text : String) : Bool :=
  has_keywords text factualPatterns

/-- Intent classification translated from IntentClassifier.classify.  The
Python fall-through on the summarization branch (it returns only when
has_documents holds, otherwise control continues to the next checks) is
rendered as a conjunction in the first guard. -/
def classify (question : String) (has_documents : Bool)
    (document_count : Nat) : String :=
  let question_lower := lowerStr question
  if has_keywords question_lower summarizationKeywords && has_documents then
    "summarization"
  else if has_keywords question_lower questionGenerationKeywords then
    if has_documents then "question_generation" else "direct_chat"
  else if has_keywords question_lower ragQueryKeywords then
    "rag_query"
  else if has_keywords question_lower homeworkSolverKeywords then
    "homework_solver"
  else if has_keywords question_lower codeHelpKeywords then
    "code_help"
  else if has_documents && is_factual_question question_lower then
    "rag_query"
  else if has_documents && (document_count != 0) then
    "rag_query"
  else
    "direct_chat"

/-- Complexity keyword list from IntentClassifier.is_complex_query. -/
def complexKeywords : List String :=
  ["phân tích", "analyze", "analysis",
   "so sánh", "compare", "comparison",
   "tổng hợp", "synthesize", "synthesis",
   "đánh giá", "evaluate", "evaluation",
   "giải thích chi tiết", "explain in detail",
   "tại sao", "why", "how does",
   "mối quan hệ", "relationship between"]

/-- Complexity heuristic translated from IntentClassifier.is_complex_query:
long question, complexity keywords, or more than one question mark. -/
def is_complex_query (question : String) : Bool :=
  let question_lower := lowerStr question
  if question.length > 100 then true
  else if has_keywords question_lower complexKeywords then true
  else if question.data.count '?' > 1 then true
  else false

/-- Rule table written from the claim about classify: one row per rule of
the stated strict priority order, each row pairing its guard with the
resulting intent.  The question-generation rule of the claim is split into
its two outcomes (with and without documents). -/
def specRules (question_lower : String) (has_documents : Bool)
    (document_count : Nat) : List (Bool × String) :=
  [ (has_keywords question_lower summarizationKeywords && has_documents,
      "summarization"),
    (has_keywords question_lower questionGenerationKeywords && has_documents,
      "question_generation"),
    (has_keywords question_lower questionGenerationKeywords && !has_documents,
      "direct_chat"),
    (has_keywords question_lower ragQueryKeywords, "rag_query"),
    (has_keywords question_lower homeworkSolverKeywords, "homework_solver"),
    (has_keywords question_lower codeHelpKeywords, "code_help"),
    (has_documents && is_factual_question question_lower, "rag_query"),
    (has_documents && (document_count != 0), "rag_query") ]

/-- Classification as the claim words it: evaluate the rules of specRules
in order, first match winning, defaulting to direct_chat. -/
def classifySpec (question : String) (has_documents : Bool)
    (document_count : Nat) : String :=
  match (specRules (lowerStr question) has_documents document_count).find?
      (fun r => r.1) with
  | some r => r.2
  | none => "direct_chat"

/-- Document-cue keyword lists of the classifier: the explicit document
reference keywords together with the summarization and question-generation
keywords, the lists whose keywords cue the presence of documents.  Used to
state the claim about keyword-free questions. -/
def documentCueKeywords : List String :=
  ragQueryKeywords ++ summarizationKeywords ++ questionGenerationKeywords

/-- Relevant fields of core/config.py Settings, with their defaults.
Score thresholds are rationals standing for the Python floats. -/
structure Settings where
  GEMINI_FLASH_MODEL : String := "gemini-1.5-flash-latest"
  GEMINI_PRO_MODEL : String := "gemini-1.5-pro-latest"
  GROQ_LLAMA_MODEL : String := "llama-3.3-70b-versatile"
  RAG_ENABLE_FALLBACK : Bool := true
  RAG_MIN_SCORE_THRESHOLD : ℚ := mkRat 3 10
  LLM_TEMPERATURE : ℚ := mkRat 7 10
deriving DecidableEq

/-- Configuration state of ModelManager: whether each provider client was
initialised (a Gemini API key, resp. a Groq client, is present). -/
structure ModelManager where
  gemini_configured : Bool
  groq_configured : Bool
deriving DecidableEq

/-- Tier selection translated from the ModelManager private method
selecting the model key from task type and complexity. -/
def select_model_key (task_type complexity : String) : String :=
  if task_type == "summarization" || task_type == "question_generation"
      || task_type == "homework_solver" then "gemini_pro"
  else if task_type == "rag_query" && complexity == "high" then "gemini_pro"
  else if (task_type == "direct_chat" || task_type == "code_help")
      && complexity == "low" then "gemini_flash"
  else "gemini_flash"

/-- Model selection translated from ModelManager.get_model: forced provider
first, then the tier table, then the availability fallback chain, and a
raised ValueError (an error value here) when no provider is configured. -/
def get_model (mm : ModelManager) (s : Settings) (task_type : String)
    (complexity : String) (force_provider : Option String) :
    Except String (String × String) :=
  if force_provider == some "groq" && mm.groq_configured then
    .ok ("groq-llama", s.GROQ_LLAMA_MODEL)
  else if force_provider == some "gemini" && mm.gemini_configured then
    .ok ("gemini-flash", s.GEMINI_FLASH_MODEL)
  else
    let model_key := select_model_key task_type complexity
    if model_key == "gemini_flash" && mm.gemini_configured then
      .ok ("gemini-flash", s.GEMINI_FLASH_MODEL)
    else if model_key == "gemini_pro" && mm.gemini_configured then
      .ok ("gemini-pro", s.GEMINI_PRO_MODEL)
    else if model_key == "groq" && mm.groq_configured then
      .ok ("groq-llama", s.GROQ_LLAMA_MODEL)
    else if mm.gemini_configured then
      .ok ("gemini-flash", s.GEMINI_FLASH_MODEL)
    else if mm.groq_configured then
      .ok ("groq-llama", s.GROQ_LLAMA_MODEL)
    else
      .error "No LLM available!"

/-- One call to ModelManager.generate_text, with every argument the
orchestrator passes. -/
structure GenCall where
  provider_name : String
  model_identifier : String
  prompt : String
  system_instruction : Option String
  temperature : ℚ
  max_tokens : Nat
deriving DecidableEq

/-- Oracle for one request execution: the outcome of each possible
generate_text call, an error value standing for a raised exception with the
given message. -/
def GenOracle : Type := GenCall → Except String String

/-- Rate-limit detection from the orchestrator private fallback helper: the
exception message contains 429 or Too Many Requests. -/
def isRateLimitError (e : String) : Bool :=
  strHas e "429" || strHas e "Too Many Requests"

/-- Generation with automatic failover, translated from the orchestrator
private method generating with fallback: on a rate-limit error, select the
Groq model by forcing the provider and retry once, labelling the result;
any other error is re-raised. -/
def generate_with_fallback (mm : ModelManager) (s : Settings)
    (gen : GenOracle) (provider_name model_identifier prompt : String)
    (system_instruction : Option String) (temperature : ℚ)
    (max_tokens : Nat) : Except String (String × String) :=
  match gen ⟨provider_name, model_identifier, prompt, system_instruction,
      temperature, max_tokens⟩ with
  | .ok answer => .ok (answer, provider_name)
  | .error gen_error =>
    if isRateLimitError gen_error then
      match get_model mm s "general" "medium" (some "groq") with
      | .error e2 => .error e2
      | .ok (fallback_provider, fallback_model) =>
        match gen ⟨fallback_provider, fallback_model, prompt,
            system_instruction, temperature, max_tokens⟩ with
        | .ok answer =>
          .ok (answer,
            fallback_provider ++ " (fallback from " ++ provider_name ++ ")")
        | .error e2 => .error e2
    else
      .error gen_error

/-- One call to the vector-store similarity search: the query vector, the
conjunctive filter (user id must-match plus optional any-of document ids),
the result limit and the score threshold. -/
structure SearchCall where
  query_vector : List ℚ
  user_id : String
  document_ids : Option (List String)
  limit : Nat
  score_threshold : ℚ
deriving DecidableEq

/-- Payload of a stored chunk as read by the orchestrator. -/
structure Payload where
  chunk_text : String
  chunk_index : Nat
  document_id : String
  file_name : String
  title : String
deriving DecidableEq

/-- One raw similarity-search hit. -/
structure ScoredPoint where
  id : Nat
  score : ℚ
  payload : Payload
deriving DecidableEq

/-- Context chunk dictionary built by the orchestrator from a raw hit. -/
structure Context where
  chunk_id : Nat
  score : ℚ
  chunk_text : String
  chunk_index : Nat
  document_id : String
  file_name : String
  title : String
deriving DecidableEq

/-- Formatting of one raw hit into a context dictionary, from the result
loop of the context-retrieval helper. -/
def toContext (r : ScoredPoint) : Context :=
  { chunk_id := r.id, score := r.score,
    chunk_text := r.payload.chunk_text,
    chunk_index := r.payload.chunk_index,
    document_id := r.payload.document_id,
    file_name := r.payload.file_name,
    title := r.payload.title }

/-- Context retrieval translated from the orchestrator private method
retrieving contexts: embed the query, run the filtered search, re-run once
at the configured floor threshold when too few results come back and the
fallback is enabled and the threshold sits above the floor, and format the
hits.  The surrounding try block turns any raised error (embedding, first
search, or fallback search) into an empty list. -/
def retrieve_contexts (s : Settings)
    (embed : String → Except String (List ℚ))
    (search : SearchCall → Except String (List ScoredPoint))
    (query user_id : String) (document_ids : Option (List String))
    (top_k : Nat) (score_threshold : ℚ) : List Context :=
  match embed query with
  | .error _ => []
  | .ok query_vector =>
    match search ⟨query_vector, user_id, document_ids, top_k,
        score_threshold⟩ with
    | .error _ => []
    | .ok first_results =>
      if first_results.length < max 2 (top_k / 2)
          ∧ s.RAG_ENABLE_FALLBACK = true
          ∧ s.RAG_MIN_SCORE_THRESHOLD < score_threshold then
        match search ⟨query_vector, user_id, document_ids, top_k,
            s.RAG_MIN_SCORE_THRESHOLD⟩ with
        | .error _ => []
        | .ok second_results => second_results.map toContext
      else
        first_results.map toContext

/-- One stored point of the vector store, as the scroll call reads it. -/
structure StoredPoint where
  id : Nat
  user_id : String
  document_id : String
  chunk_text : String
  chunk_index : Nat
  file_name : String
  title : String
deriving DecidableEq

/-- Modelled from the spec: the vector-store scan call, scroll with a
conjunctive filter (user id must-match plus any-of document ids) and a
limit, returning at most limit matching points without scoring. -/
def qdrant_scroll (db : List StoredPoint) (user_id : String)
    (document_ids : List String) (limit : Nat) : List StoredPoint :=
  (db.filter (fun p =>
    p.user_id == user_id && document_ids.contains p.document_id)).take limit

/-- Formatting of one scrolled point into a context dictionary: no score
exists for scroll, so the nominal score 1.0 is assigned. -/
def scanContext (p : StoredPoint) : Context :=
  { chunk_id := p.id, score := 1,
    chunk_text := p.chunk_text,
    chunk_index := p.chunk_index,
    document_id := p.document_id,
    file_name := p.file_name,
    title := p.title }

/-- Boolean comparison on context chunk indices, used for the sort at the
end of the full-document retrieval. -/
def ctx_le (a b : Context) : Bool :=
  decide (a.chunk_index ≤ b.chunk_index)

/-- Full-document retrieval translated from the orchestrator private method
retrieving a full document: scroll every chunk of the given documents up to
the fixed limit 100, map to contexts with nominal score 1.0, and sort by
chunk index. -/
def retrieve_full_document (db : List StoredPoint) (user_id : String)
    (document_ids : List String) : List Context :=
  ((qdrant_scroll db user_id document_ids 100).map scanContext).mergeSort
    ctx_le

/-- Uniform shape every handler returns: answer, contexts used, provider
label, and the token estimate. -/
structure HandlerResult where
  answer : String
  contexts : List Context
  model : String
  tokens_used : Nat
deriving DecidableEq

/-- Word counting helper: counts maximal runs of non-whitespace characters,
the flag recording whether the previous character was inside a word. -/
def wcAux : List Char → Bool → Nat
  | [], _ => 0
  | c :: cs, in_word =>
    if c.isWhitespace then wcAux cs false
    else (if in_word then 0 else 1) + wcAux cs true

/-- Number of words of a string under Python str.split with no separator
argument: maximal whitespace-free runs. -/
def wordCount (s : String) : Nat :=
  wcAux s.data false

/-- Token estimation translated from the orchestrator private estimator:
word count of the input text plus word count of the output text. -/
def estimate_tokens (input_text output_text : String) : Nat :=
  wordCount input_text + wordCount output_text

/-- Python or-default on an optional temperature: None and 0.0 both fall
back to the default, because 0.0 is falsy under the Python or operator. -/
def orDefaultQ : Option ℚ → ℚ → ℚ
  | none, d => d
  | some v, d => if v = 0 then d else v

/-- Python or-default on an optional max-token count: None and 0 both fall
back to the default. -/
def orDefaultN : Option Nat → Nat → Nat
  | none, d => d
  | some v, d => if v = 0 then d else v

/-- Canned answer of the RAG handler when no context is found. -/
def noRelevantInfoAnswer : String :=
  "Tôi không tìm thấy thông tin phù hợp trong tài liệu của bạn. Vui lòng thử câu hỏi khác hoặc upload thêm tài liệu."

/-- System instruction of the direct-chat handler. -/
def directChatSystemInstruction : String :=
  "Bạn là trợ lý học tập thông minh, giúp sinh viên học tập hiệu quả.\n\nNHIỆM VỤ:\n- Trả lời câu hỏi rõ ràng, dễ hiểu\n- Giải thích chi tiết, có ví dụ minh họa\n- Với bài tập: hướng dẫn từng bước, giải thích logic\n- Với code: viết code đúng chuẩn, comment đầy đủ\n- Trả lời bằng tiếng Việt\n\nPHONG CÁCH:\n- Thân thiện, dễ tiếp cận\n- Khuyến khích tư duy phản biện\n- Đưa ra tips học tập"

/-- System instruction of the RAG handler. -/
def ragSystemInstruction : String :=
  "Bạn là trợ lý học tập thông minh. Trả lời câu hỏi dựa trên tài liệu được cung cấp.\n\nNGUYÊN TẮC:\n- Trả lời dựa CHÍNH XÁC vào nội dung tài liệu\n- Trích dẫn nguồn khi trả lời (ví dụ: \"Theo Tài liệu 1...\")\n- Nếu không tìm thấy thông tin, nói rõ \"Thông tin này không có trong tài liệu\"\n- Giải thích rõ ràng, dễ hiểu\n- Trả lời bằng tiếng Việt"

/-- System instruction of the generic fallback chat path. -/
def fallbackSystemInstruction : String :=
  "Bạn là trợ lý thông minh. Trả lời câu hỏi của người dùng."

/-- Context block of the RAG prompt: numbered documents joined by blank
lines, from the RAG handler. -/
def rag_context_str (contexts : List Context) : String :=
  String.intercalate "\n\n" (contexts.enum.map (fun p =>
    "[Tài liệu " ++ toString (p.1 + 1) ++ " - " ++ p.2.file_name ++ "]\n"
      ++ p.2.chunk_text))

/-- User prompt of the RAG handler, wrapping the context block and the
question. -/
def rag_user_prompt (context_str question : String) : String :=
  "TÀI LIỆU:\n" ++ context_str ++ "\n\nCÂU HỎI: " ++ question
    ++ "\n\nTRẢ LỜI:"

/-- Generic fallback chat translated from the orchestrator private fallback
helper: re-select a model through the availability chain, generate with a
generic instruction, label the provider with a -fallback suffix, and raise
an aggregated error when this too fails. -/
def fallback_chat (mm : ModelManager) (s : Settings) (gen : GenOracle)
    (question : String) (temperature : Option ℚ) (max_tokens : Option Nat) :
    Except String HandlerResult :=
  match get_model mm s "direct_chat" "low" none with
  | .error e => .error ("All models failed: " ++ e)
  | .ok (provider_name, model_object) =>
    match gen ⟨provider_name, model_object, question,
        some fallbackSystemInstruction, orDefaultQ temperature (mkRat 7 10),
        orDefaultN max_tokens 2048⟩ with
    | .error e => .error ("All models failed: " ++ e)
    | .ok answer =>
      .ok { answer := answer, contexts := [],
            model := provider_name ++ "-fallback",
            tokens_used := estimate_tokens question answer }

/-- Direct-chat handler translated from the orchestrator: select the fast
model, generate with the tutor instruction, and on any raised error fall
back once through the generic fallback chat. -/
def handle_direct_chat (mm : ModelManager) (s : Settings) (gen : GenOracle)
    (question : String) (temperature : Option ℚ) (max_tokens : Option Nat) :
    Except String HandlerResult :=
  match get_model mm s "direct_chat" "low" none with
  | .error _ => fallback_chat mm s gen question temperature max_tokens
  | .ok (provider_name, model_object) =>
    match gen ⟨provider_name, model_object, question,
        some directChatSystemInstruction, orDefaultQ temperature (mkRat 7 10),
        orDefaultN max_tokens 2048⟩ with
    | .error _ => fallback_chat mm s gen question temperature max_tokens
    | .ok answer =>
      .ok { answer := answer, contexts := [],
            model := provider_name,
            tokens_used := estimate_tokens question answer }

/-- RAG handler translated from the orchestrator: retrieve contexts, short
circuit to the canned answer when none are found, otherwise pick the model
by complexity, build the grounded prompt, and generate with the rate-limit
fallback.  Errors escaping the try block are re-raised with the RAG prefix. -/
def handle_rag_query (mm : ModelManager) (s : Settings)
    (embed : String → Except String (List ℚ))
    (search : SearchCall → Except String (List ScoredPoint))
    (gen : GenOracle) (question user_id : String)
    (document_ids : Option (List String)) (top_k : Nat)
    (score_threshold : ℚ) (temperature : Option ℚ)
    (max_tokens : Option Nat) : Except String HandlerResult :=
  let contexts := retrieve_contexts s embed search question user_id
    document_ids top_k score_threshold
  if contexts.isEmpty then
    .ok { answer := noRelevantInfoAnswer, contexts := [],
          model := "none", tokens_used := 0 }
  else
    match get_model mm s "rag_query"
        (if is_complex_query question then "high" else "low") none with
    | .error e => .error ("RAG processing failed: " ++ e)
    | .ok (provider_name, model_object) =>
      let context_str := rag_context_str contexts
      let user_prompt := rag_user_prompt context_str question
      match generate_with_fallback mm s gen provider_name model_object
          user_prompt (some ragSystemInstruction)
          (orDefaultQ temperature s.LLM_TEMPERATURE)
          (orDefaultN max_tokens 2048) with
      | .error e => .error ("RAG processing failed: " ++ e)
      | .ok (answer, used_model) =>
        .ok { answer := answer, contexts := contexts,
              model := used_model,
              tokens_used := estimate_tokens (context_str ++ question)
                answer }

/-- Settings instance with every configuration default. -/
def s0 : Settings := {}

/-- Manager state with both providers configured. -/
def mmBoth : ModelManager := ⟨true, true⟩

/-- Manager state with only Groq configured. -/
def mmGroqOnly : ModelManager := ⟨false, true⟩

/-- Manager state with no provider configured. -/
def mmNone : ModelManager := ⟨false, false⟩

/-- Embedding oracle returning an empty vector, for concrete runs. -/
def embedOk : String → Except String (List ℚ) := fun _ => .ok []

/-- Search oracle that always raises, simulating an unreachable backend. -/
def searchFail : SearchCall → Except String (List ScoredPoint) :=
  fun _ => .error "connection refused"

/-- Generation oracle that always succeeds with a one-word answer. -/
def genOk : GenOracle := fun _ => .ok "b"

/-- Generation oracle raising a rate-limit error on the Gemini Pro provider
and succeeding elsewhere. -/
def genRateLimited : GenOracle := fun c =>
  if c.provider_name == "gemini-pro" then .error "429 Too Many Requests"
  else .ok "fallback answer"

/-- Generation oracle raising on the tutor instruction and succeeding on
the generic fallback instruction. -/
def genPrimaryFails : GenOracle := fun c =>
  if c.system_instruction == some directChatSystemInstruction then
    .error "boom"
  else .ok "fb"

/-- Sample raw similarity hit for concrete retrieval runs. -/
def ptW : ScoredPoint := ⟨1, mkRat 1 2, ⟨"a", 0, "d", "f", ""⟩⟩

/-- Search oracle returning one hit at any threshold. -/
def searchOne : SearchCall → Except String (List ScoredPoint) :=
  fun _ => .ok [ptW]

/-- Search oracle returning no hit at threshold one half and one hit at any
other threshold, exercising the adaptive fallback re-search. -/
def searchAdaptive : SearchCall → Except String (List ScoredPoint) :=
  fun c => if c.score_threshold = mkRat 1 2 then .ok [] else .ok [ptW]

/-- Sample stored points for the scan-retrieval witness: two chunks of the
requested document out of index order, one chunk of another user, one chunk
of another document. -/
def dbW : List StoredPoint :=
  [⟨1, "u", "d1", "t1", 1, "f", ""⟩, ⟨2, "u", "d1", "t0", 0, "f", ""⟩,
   ⟨3, "v", "d1", "x", 0, "f", ""⟩, ⟨4, "u", "d2", "y", 0, "f", ""⟩]

/-- C1: when the primary generation call fails with a rate-limit message,
generate_with_fallback retries exactly once against the fallback provider
selected by forcing groq at task general and complexity medium, and a
successful retry yields the fallback answer labelled with the fallback
provider and the original provider, without re-raising; a failure whose
message does not indicate rate-limiting propagates unchanged with no
retry. -/
theorem c1_generate_with_fallback_rate_limit
    (mm : ModelManager) (s : Settings) (gen : GenOracle)
    (pn mo prompt : String) (si : Option String) (temp : ℚ) (mt : Nat)
    (e : String)
    (hgen : gen ⟨pn, mo, prompt, si, temp, mt⟩ = .error e) :
    (isRateLimitError e = true →
      ∀ fp fm ans,
        get_model mm s "general" "medium" (some "groq") = .ok (fp, fm) →
        gen ⟨fp, fm, prompt, si, temp, mt⟩ = .ok ans →
        generate_with_fallback mm s gen pn mo prompt si temp mt
          = .ok (ans, fp ++ " (fallback from " ++ pn ++ ")"))
    ∧ (isRateLimitError e = false →
        generate_with_fallback mm s gen pn mo prompt si temp mt
          = .error e) := by
  constructor
  · intro hrl fp fm ans hsel hfb
    unfold generate_with_fallback
    rw [hgen, hsel]
    simp [hrl, hfb]
  · intro hrl
    unfold generate_with_fallback
    rw [hgen]
    simp [hrl]

/-- C1 witness: a concrete rate-limited primary call falls over to the Groq
model and returns the labelled fallback answer. -/
theorem c1_witness :
    generate_with_fallback mmBoth s0 genRateLimited "gemini-pro" "m" "p"
      none 0 1
      = .ok ("fallback answer", "groq-llama (fallback from gemini-pro)") :=
  (c1_generate_with_fallback_rate_limit mmBoth s0 genRateLimited
      "gemini-pro" "m" "p" none 0 1 "429 Too Many Requests" rfl).1
    (by decide) "groq-llama" s0.GROQ_LLAMA_MODEL "fallback answer" rfl rfl

/-- C2: a raised vector-search error is recovered locally as an empty
context list by retrieve_contexts, and whenever retrieval yields no
contexts the RAG handler short-circuits, for every generation oracle, to
the fixed no-relevant-information answer with empty contexts, provider
label none and zero estimated tokens, never invoking a generation
provider. -/
theorem c2_empty_retrieval_short_circuit
    (mm : ModelManager) (s : Settings)
    (embed : String → Except String (List ℚ))
    (search : SearchCall → Except String (List ScoredPoint))
    (gen : GenOracle) (q uid : String) (dids : Option (List String))
    (tk : Nat) (thr : ℚ) (temp : Option ℚ) (mt : Option Nat) :
    (∀ qv e, embed q = .ok qv →
      search ⟨qv, uid, dids, tk, thr⟩ = .error e →
      retrieve_contexts s embed search q uid dids tk thr = [])
    ∧ (retrieve_contexts s embed search q uid dids tk thr = [] →
      handle_rag_query mm s embed search gen q uid dids tk thr temp mt
        = .ok { answer := noRelevantInfoAnswer, contexts := [],
                model := "none", tokens_used := 0 }) := by
  constructor
  · intro qv e hemb hsearch
    simp only [retrieve_contexts, hemb, hsearch]
  · intro hempty
    simp only [handle_rag_query, hempty, List.isEmpty_nil, if_true]

/-- C2 witness: with an unreachable search backend the handler returns the
canned degraded answer. -/
theorem c2_witness :
    handle_rag_query mmBoth s0 embedOk searchFail genOk "q" "u" none 5
      (mkRat 1 2) none none
      = .ok { answer := noRelevantInfoAnswer, contexts := [],
              model := "none", tokens_used := 0 } :=
  (c2_empty_retrieval_short_circuit mmBoth s0 embedOk searchFail genOk
      "q" "u" none 5 (mkRat 1 2) none none).2
    ((c2_empty_retrieval_short_circuit mmBoth s0 embedOk searchFail genOk
      "q" "u" none 5 (mkRat 1 2) none none).1 [] "connection refused" rfl rfl)

/-- C3: given a successful first search, the adaptive re-search happens
exactly when the result count is below max 2 (top_k / 2), the fallback is
enabled and the threshold sits strictly above the configured floor; the
re-search runs once with the same query vector, filter and top_k at
exactly the floor threshold, and its results replace the original ones. -/
theorem c3_adaptive_fallback (s : Settings)
    (embed : String → Except String (List ℚ))
    (search : SearchCall → Except String (List ScoredPoint))
    (q uid : String) (dids : Option (List String)) (tk : Nat) (thr : ℚ)
    (qv : List ℚ) (res : List ScoredPoint)
    (hemb : embed q = .ok qv)
    (h1 : search ⟨qv, uid, dids, tk, thr⟩ = .ok res) :
    (¬(res.length < max 2 (tk / 2) ∧ s.RAG_ENABLE_FALLBACK = true
        ∧ s.RAG_MIN_SCORE_THRESHOLD < thr) →
      retrieve_contexts s embed search q uid dids tk thr
        = res.map toContext)
    ∧ ((res.length < max 2 (tk / 2) ∧ s.RAG_ENABLE_FALLBACK = true
        ∧ s.RAG_MIN_SCORE_THRESHOLD < thr) →
      ∀ res2, search ⟨qv, uid, dids, tk, s.RAG_MIN_SCORE_THRESHOLD⟩
          = .ok res2 →
        retrieve_contexts s embed search q uid dids tk thr
          = res2.map toContext) := by
  constructor
  · intro hcond
    simp only [retrieve_contexts, hemb, h1]
    rw [if_neg hcond]
  · intro hcond res2 h2
    simp only [retrieve_contexts, hemb, h1]
    rw [if_pos hcond, h2]

/-- C3 witness: a first search returning one hit below the quota at
threshold one half triggers the single floor-threshold re-search, whose
results replace the original ones. -/
theorem c3_witness :
    retrieve_contexts s0 embedOk searchAdaptive "q" "u" none 5 (mkRat 1 2)
      = [toContext ptW] :=
  (c3_adaptive_fallback s0 embedOk searchAdaptive "q" "u" none 5 (mkRat 1 2)
      [] [] rfl rfl).2 (by refine ⟨by decide, rfl, by decide⟩) [ptW] rfl

/-- C4: classify agrees on every input with the rule chain stated by the
claim, evaluated in strict priority order over the lower-cased question
with substring-containment keyword matching, first match winning and
direct_chat as the default. -/
theorem c4_classify_priority_order (q : String) (hd : Bool) (dc : Nat) :
    classify q hd dc = classifySpec q hd dc := by
  unfold classify classifySpec specRules
  cases h1 : has_keywords (lowerStr q) summarizationKeywords <;>
  cases h2 : has_keywords (lowerStr q) questionGenerationKeywords <;>
  cases h3 : has_keywords (lowerStr q) ragQueryKeywords <;>
  cases h4 : has_keywords (lowerStr q) homeworkSolverKeywords <;>
  cases h5 : has_keywords (lowerStr q) codeHelpKeywords <;>
  cases h6 : is_factual_question (lowerStr q) <;>
  cases hd <;>
  cases h7 : (dc != 0) <;>
  simp_all [List.find?]

/-- C5: the tier table always routes summarization, question generation and
homework solving to the high-capability key, routes rag queries there
exactly when complexity is high and to the fast key otherwise, always
routes direct chat and code help to the fast key; and a configured forced
provider short-circuits get_model to that provider for every task type and
complexity. -/
theorem c5_select_model_routing (mm : ModelManager) (s : Settings)
    (tt c : String) :
    (select_model_key "summarization" c = "gemini_pro"
      ∧ select_model_key "question_generation" c = "gemini_pro"
      ∧ select_model_key "homework_solver" c = "gemini_pro")
    ∧ select_model_key "rag_query" c
        = (if c = "high" then "gemini_pro" else "gemini_flash")
    ∧ (select_model_key "direct_chat" c = "gemini_flash"
      ∧ select_model_key "code_help" c = "gemini_flash")
    ∧ (mm.groq_configured = true →
        get_model mm s tt c (some "groq")
          = .ok ("groq-llama", s.GROQ_LLAMA_MODEL))
    ∧ (mm.gemini_configured = true →
        get_model mm s tt c (some "gemini")
          = .ok ("gemini-flash", s.GEMINI_FLASH_MODEL)) := by
  refine ⟨⟨rfl, rfl, rfl⟩, ?_, ⟨?_, ?_⟩, ?_, ?_⟩
  · by_cases hc : c = "high" <;>
      simp [select_model_key, beq_iff_eq, hc]
  · by_cases hc : c = "low" <;>
      simp [select_model_key, beq_iff_eq, hc]
  · by_cases hc : c = "low" <;>
      simp [select_model_key, beq_iff_eq, hc]
  · intro hq
    simp [get_model, hq]
  · intro hg
    by_cases hq : mm.groq_configured <;>
      simp [get_model, hq, hg]

/-- C5 witness: a forced Groq provider wins over the tier table on a
concrete fast-tier task. -/
theorem c5_witness :
    get_model mmBoth s0 "rag_query" "low" (some "groq")
      = .ok ("groq-llama", s0.GROQ_LLAMA_MODEL) :=
  (c5_select_model_routing mmBoth s0 "rag_query" "low").2.2.2.1 rfl

/-- C6: when the designated provider of the selected tier (Gemini, for both
tiers) is not configured, get_model returns the model of the first
configured provider in the fixed order Gemini flash, Gemini pro, Groq,
which is then the Groq model; and when no provider at all is configured it
fails with the no-provider error instead of returning a model. -/
theorem c6_provider_fallback_chain (mm : ModelManager) (s : Settings)
    (tt c : String) (hg : mm.gemini_configured = false) :
    (mm.groq_configured = true →
      get_model mm s tt c none = .ok ("groq-llama", s.GROQ_LLAMA_MODEL))
    ∧ (mm.groq_configured = false →
      get_model mm s tt c none = .error "No LLM available!") := by
  have hkey : select_model_key tt c = "gemini_pro"
      ∨ select_model_key tt c = "gemini_flash" := by
    unfold select_model_key
    split_ifs <;> simp
  constructor <;> intro hq <;>
    rcases hkey with h | h <;>
    simp [get_model, h, hg, hq]

/-- C6 witness: with Gemini unconfigured a high-capability task lands on
the Groq model, and with nothing configured get_model fails. -/
theorem c6_witness :
    get_model mmGroqOnly s0 "summarization" "high" none
      = .ok ("groq-llama", s0.GROQ_LLAMA_MODEL)
    ∧ get_model mmNone s0 "summarization" "high" none
      = .error "No LLM available!" :=
  ⟨(c6_provider_fallback_chain mmGroqOnly s0 "summarization" "high" rfl).1
      rfl,
   (c6_provider_fallback_chain mmNone s0 "summarization" "high" rfl).2 rfl⟩

/-- C7: for every user scope and non-empty document scope, the full
document scan returns a permutation of the matching chunks capped at 100,
assigns every returned chunk the nominal score 1 with no score threshold
applied, and yields chunk indices non-decreasing along the result list. -/
theorem c7_scan_document (db : List StoredPoint) (uid : String)
    (dids : List String) (_h : dids ≠ []) :
    (retrieve_full_document db uid dids).length ≤ 100
    ∧ (∀ c ∈ retrieve_full_document db uid dids, c.score = 1)
    ∧ List.Pairwise (fun a b => a.chunk_index ≤ b.chunk_index)
        (retrieve_full_document db uid dids)
    ∧ (retrieve_full_document db uid dids).Perm
        ((qdrant_scroll db uid dids 100).map scanContext) := by
  refine ⟨?_, ?_, ?_, ?_⟩
  · unfold retrieve_full_document qdrant_scroll
    rw [List.length_mergeSort, List.length_map]
    exact List.length_take_le _ _
  · intro c hc
    unfold retrieve_full_document at hc
    rw [List.mem_mergeSort] at hc
    obtain ⟨p, _, rfl⟩ := List.mem_map.mp hc
    rfl
  · have htrans : ∀ a b c : Context, ctx_le a b → ctx_le b c → ctx_le a c := by
      intro a b c hab hbc
      simp only [ctx_le, decide_eq_true_eq] at *
      omega
    have htotal : ∀ a b : Context, ctx_le a b || ctx_le b a := by
      intro a b
      simp only [ctx_le, Bool.or_eq_true, decide_eq_true_eq]
      omega
    exact (List.sorted_mergeSort htrans htotal _).imp
      (fun hab => by simpa [ctx_le] using hab)
  · exact List.mergeSort_perm _ _

/-- C7 witness: the scan over a concrete store with an out-of-order
document stays within the cap. -/
theorem c7_witness :
    (retrieve_full_document dbW "u" ["d1"]).length ≤ 100 :=
  (c7_scan_document dbW "u" ["d1"] (by decide)).1

/-- C8 counterexample: the question homework contains no document-cue
keyword (none of the explicit document-reference, summarization or
question-generation keywords), yet classify with has_documents set to
false returns homework_solver, not direct_chat. -/
theorem c8_counterexample :
    has_keywords (lowerStr "homework") documentCueKeywords = false
    ∧ classify "homework" false 0 = "homework_solver"
    ∧ "homework_solver" ≠ "direct_chat" := by
  refine ⟨by decide, by decide, by decide⟩

/-- C8 amended: for every question containing no keyword of the rag-query,
homework or code keyword lists, classify with has_documents set to false
returns direct_chat; and classify is total, always resolving to one of the
six intents. -/
theorem c8_no_keyword_direct_chat :
    (∀ (q : String) (dc : Nat),
      has_keywords (lowerStr q) ragQueryKeywords = false →
      has_keywords (lowerStr q) homeworkSolverKeywords = false →
      has_keywords (lowerStr q) codeHelpKeywords = false →
      classify q false dc = "direct_chat")
    ∧ (∀ (q : String) (hd : Bool) (dc : Nat),
      classify q hd dc = "direct_chat" ∨ classify q hd dc = "rag_query"
      ∨ classify q hd dc = "summarization"
      ∨ classify q hd dc = "question_generation"
      ∨ classify q hd dc = "homework_solver"
      ∨ classify q hd dc = "code_help") := by
  constructor
  · intro q dc h3 h4 h5
    unfold classify
    cases h1 : has_keywords (lowerStr q) summarizationKeywords <;>
    cases h2 : has_keywords (lowerStr q) questionGenerationKeywords <;>
    simp_all
  · intro q hd dc
    unfold classify
    cases h1 : has_keywords (lowerStr q) summarizationKeywords <;>
    cases h2 : has_keywords (lowerStr q) questionGenerationKeywords <;>
    cases h3 : has_keywords (lowerStr q) ragQueryKeywords <;>
    cases h4 : has_keywords (lowerStr q) homeworkSolverKeywords <;>
    cases h5 : has_keywords (lowerStr q) codeHelpKeywords <;>
    cases h6 : is_factual_question (lowerStr q) <;>
    cases hd <;>
    cases h7 : (dc != 0) <;>
    simp_all

/-- C8 witness: a concrete keyword-free question resolves to direct chat. -/
theorem c8_witness :
    classify "hello" false 0 = "direct_chat" :=
  c8_no_keyword_direct_chat.1 "hello" 0 (by decide) (by decide) (by decide)

/-- C9 counterexample: a concrete RAG run whose generation prompt is the
full templated user prompt, while the stored token estimate is 7, the word
count of the bare context string concatenated with the question plus the
word count of the answer; the word count of the actual prompt plus the
answer is 14, so the estimate does not equal prompt words plus answer
words. -/
theorem c9_counterexample :
    handle_rag_query mmBoth s0 embedOk searchOne genOk "q" "u" none 2
      (mkRat 3 10) none none
      = .ok { answer := "b", contexts := [toContext ptW],
              model := "gemini-flash", tokens_used := 7 }
    ∧ wordCount (rag_user_prompt (rag_context_str [toContext ptW]) "q")
        + wordCount "b" = 14
    ∧ (7 : Nat) ≠ 14 := by
  refine ⟨rfl, by decide, by decide⟩

/-- Helper: every successful generic fallback chat estimates its tokens
from the question and the answer. -/
theorem fallback_chat_tokens (mm : ModelManager) (s : Settings)
    (gen : GenOracle) (q : String) (temp : Option ℚ) (mt : Option Nat)
    (r : HandlerResult) (h : fallback_chat mm s gen q temp mt = .ok r) :
    r.tokens_used = estimate_tokens q r.answer := by
  unfold fallback_chat at h
  split at h
  · exact absurd h (by simp)
  · split at h
    · exact absurd h (by simp)
    · cases h
      rfl

/-- C9 amended: the estimated token count equals the word count of the
estimator input plus the word count of the answer, where the estimator
input of the RAG handler is the bare context string concatenated directly
with the question (not the full generation prompt), and that of the
direct-chat handler is the question itself. -/
theorem c9_tokens_amended (mm : ModelManager) (s : Settings)
    (embed : String → Except String (List ℚ))
    (search : SearchCall → Except String (List ScoredPoint))
    (gen : GenOracle) (q uid : String) (dids : Option (List String))
    (tk : Nat) (thr : ℚ) (temp : Option ℚ) (mt : Option Nat) :
    (∀ r, handle_rag_query mm s embed search gen q uid dids tk thr temp mt
        = .ok r → r.contexts ≠ [] →
      r.tokens_used
        = estimate_tokens (rag_context_str r.contexts ++ q) r.answer)
    ∧ (∀ r, handle_direct_chat mm s gen q temp mt = .ok r →
      r.tokens_used = estimate_tokens q r.answer) := by
  constructor
  · intro r h hne
    simp only [handle_rag_query] at h
    split at h
    · cases h
      exact absurd rfl hne
    · split at h
      · exact absurd h (by simp)
      · split at h
        · exact absurd h (by simp)
        · cases h
          rfl
  · intro r h
    unfold handle_direct_chat at h
    split at h
    · exact fallback_chat_tokens _ _ _ _ _ _ _ h
    · split at h
      · exact fallback_chat_tokens _ _ _ _ _ _ _ h
      · cases h
        rfl

/-- C9 witness: in the concrete run of the counterexample, the stored
estimate does equal the word count of the context string concatenated with
the question plus the word count of the answer. -/
theorem c9_witness :
    ({ answer := "b", contexts := [toContext ptW],
       model := "gemini-flash", tokens_used := 7 } :
        HandlerResult).tokens_used
      = estimate_tokens
          (rag_context_str [toContext ptW] ++ "q") "b" :=
  (c9_tokens_amended mmBoth s0 embedOk searchOne genOk "q" "u" none 2
      (mkRat 3 10) none none).1
    { answer := "b", contexts := [toContext ptW],
      model := "gemini-flash", tokens_used := 7 }
    rfl (by decide)

/-- C10: any raised error on the primary direct-chat generation attempt,
whatever its message, routes the handler through the generic fallback path,
which re-selects a model from the availability chain, labels a successful
retry with the -fallback suffix, and surfaces an aggregated error only when
the second attempt also fails. -/
theorem c10_direct_chat_generic_fallback (mm : ModelManager) (s : Settings)
    (gen : GenOracle) (q : String) (temp : Option ℚ) (mt : Option Nat)
    (pn mo e : String)
    (hsel : get_model mm s "direct_chat" "low" none = .ok (pn, mo))
    (hfail : gen ⟨pn, mo, q, some directChatSystemInstruction,
        orDefaultQ temp (mkRat 7 10), orDefaultN mt 2048⟩ = .error e) :
    handle_direct_chat mm s gen q temp mt
      = fallback_chat mm s gen q temp mt
    ∧ (∀ ans, gen ⟨pn, mo, q, some fallbackSystemInstruction,
          orDefaultQ temp (mkRat 7 10), orDefaultN mt 2048⟩ = .ok ans →
        handle_direct_chat mm s gen q temp mt
          = .ok { answer := ans, contexts := [],
                  model := pn ++ "-fallback",
                  tokens_used := estimate_tokens q ans })
    ∧ (∀ e2, gen ⟨pn, mo, q, some fallbackSystemInstruction,
          orDefaultQ temp (mkRat 7 10), orDefaultN mt 2048⟩ = .error e2 →
        handle_direct_chat mm s gen q temp mt
          = .error ("All models failed: " ++ e2)) := by
  have hmain : handle_direct_chat mm s gen q temp mt
      = fallback_chat mm s gen q temp mt := by
    simp only [handle_direct_chat, hsel, hfail]
  refine ⟨hmain, ?_, ?_⟩
  · intro ans hok
    rw [hmain]
    simp only [fallback_chat, hsel, hok]
  · intro e2 herr
    rw [hmain]
    simp only [fallback_chat, hsel, herr]

set_option maxRecDepth 8000 in
/-- C10 witness: a concrete non-rate-limit primary failure lands on the
labelled generic fallback answer. -/
theorem c10_witness :
    handle_direct_chat mmBoth s0 genPrimaryFails "q" none none
      = .ok { answer := "fb", contexts := [],
              model := "gemini-flash-fallback", tokens_used := 2 } :=
  (c10_direct_chat_generic_fallback mmBoth s0 genPrimaryFails "q" none none
      "gemini-flash" s0.GEMINI_FLASH_MODEL "boom" rfl rfl).2.1 "fb" rfl

end AcademicHub
